import Mathlib

/-
Verification of the Universal Clock pair-selection, range-analysis and
signal-derivation logic.

The repository has two near-duplicate Streamlit variants:
  * TradePlanApp.py — live/historical pair selection, get_range with an
    exact-date match followed by a ±1-day fallback window, overlap analysis
    and three trade-plan tabs;
  * app.py — a shorter variant: a single (live-style) pair-selection loop
    and a get_range that scans the ±1-day window directly.

Shallow embedding conventions:
  * Dates are modelled as `Int`, the proleptic-Gregorian ordinal used by
    Python's `date.toordinal` (so `timedelta(days = n)` is `+ n`, and date
    comparison is integer comparison).  Concrete dates in examples carry
    their calendar reading in comments (2025-01-01 = 739252, etc.).
  * Prices are modelled as `ℚ`.
  * A Streamlit hard stop (`st.error` + `st.stop`) is modelled as `none`;
    a value that reaches the display is `some`.
-/

/- One trading day's bar: a row of the downloaded dataframe
   (columns Open/High/Low/Close, indexed by date). -/
structure PriceBar where
  date : Int
  open_price : ℚ
  high : ℚ
  low : ℚ
  close : ℚ
deriving DecidableEq

/- The dictionary returned by TradePlanApp.get_range:
   keys 'high', 'low', 'close'. -/
structure Range where
  high : ℚ
  low : ℚ
  close : ℚ
deriving DecidableEq

/- One Mercury/Sun conjunction pair (sup, inf): a tuple of two dates. -/
structure EventPair where
  sup : Int
  inf : Int
deriving DecidableEq

/- `df[df.index.date == d]` : the bars of the series on day `d`. -/
def barsOn (df : List PriceBar) (d : Int) : List PriceBar :=
  df.filter (fun b => b.date == d)

/- `day['High'].max()` over a (nonempty) day selection.  The `[]` case is
   unreachable in the embedding: every caller guards with `mask.any()`. -/
def maxHigh : List PriceBar → ℚ
  | [] => 0
  | [b] => b.high
  | b :: c :: bs => max b.high (maxHigh (c :: bs))

/- `day['Low'].min()` over a (nonempty) day selection. -/
def minLow : List PriceBar → ℚ
  | [] => 0
  | [b] => b.low
  | b :: c :: bs => min b.low (minLow (c :: bs))

/- `day['Close'].iloc[-1]` : close of the last bar of the selection. -/
def lastClose : List PriceBar → ℚ
  | [] => 0
  | [b] => b.close
  | _ :: c :: bs => lastClose (c :: bs)

/- The body shared by both branches of TradePlanApp.get_range:
   `mask.any()` fails on an empty selection (`none`); otherwise the dict
   {'high': day['High'].max(), 'low': day['Low'].min(),
    'close': day['Close'].iloc[-1]} is returned. -/
def mkRange? (day : List PriceBar) : Option Range :=
  match day with
  | [] => none
  | b :: bs => some ⟨maxHigh (b :: bs), minLow (b :: bs), lastClose (b :: bs)⟩

namespace TradePlanApp

/- The guard of the LIVE-mode selection loop (TradePlanApp.py line 66):
   `sup <= today <= inf + timedelta(days=30)`. -/
def live_cond (today : Int) (p : EventPair) : Bool :=
  decide (p.sup ≤ today) && decide (today ≤ p.inf + 30)

/- LIVE MODE pair selection (TradePlanApp.py lines 63-70): scan
   `reversed(pairs)`, keep the first pair satisfying the guard, and fall
   back to `pairs[-1]` when the loop finds nothing.  (`pairs[-1]` raises
   IndexError on an empty list; the script's list is hardcoded nonempty,
   and the fallback is modelled with `getLast?`.) -/
def active_pair_live (pairs : List EventPair) (today : Int) : Option EventPair :=
  match pairs.reverse.find? (live_cond today) with
  | some p => some p
  | none => pairs.getLast?

/- The guard of the HISTORICAL-mode selection loop (TradePlanApp.py
   line 77): `sup <= target <= inf + timedelta(days=10)`. -/
def hist_cond (target : Int) (p : EventPair) : Bool :=
  decide (p.sup ≤ target) && decide (target ≤ p.inf + 10)

/- HISTORICAL MODE pair selection (TradePlanApp.py lines 73-83): scan
   `pairs` in order, keep the first pair satisfying the guard; when none
   matches the script emits `st.error(...)` and `st.stop()` — a hard
   failure with no fallback, modelled as `none`. -/
def active_pair_historical (pairs : List EventPair) (target : Int) : Option EventPair :=
  pairs.find? (hist_cond target)

/- The fallback loop of get_range (TradePlanApp.py lines 99-107):
   `for d in [date + timedelta(days=i) for i in [-1, 0, 1]]`, returning the
   range dict of the first date whose mask is nonempty. -/
def get_range_loop (df : List PriceBar) : List Int → Option Range
  | [] => none
  | d :: rest =>
    match mkRange? (barsOn df d) with
    | some r => some r
    | none => get_range_loop df rest

/- get_range (TradePlanApp.py lines 88-108): exact-date match first; on an
   empty mask, the ±1-day window [-1, 0, 1]; `None` when nothing matches. -/
def get_range (df : List PriceBar) (date : Int) : Option Range :=
  match mkRange? (barsOn df date) with
  | some r => some r
  | none => get_range_loop df [date - 1, date, date + 1]

/- `overlap = not (range1['high'] < range2['low'] or range2['high'] <
   range1['low'])` (TradePlanApp.py line 153). -/
def overlap (r1 r2 : Range) : Bool :=
  !(decide (r1.high < r2.low) || decide (r2.high < r1.low))

/- `overlap_pct` (TradePlanApp.py lines 154-158): initialised to 0 and,
   when `overlap` holds, reassigned to
   `(min(h1,h2) - max(l1,l2)) / (range1['high'] - range1['low']) * 100`.
   In Python the operands are numpy floats, so a zero divisor yields
   NaN/inf rather than raising; ℚ division stands in for that total
   division (Lean's x / 0 = 0 marks the same degenerate branch). -/
def overlap_pct (r1 r2 : Range) : ℚ :=
  if overlap r1 r2 then
    (min r1.high r2.high - max r1.low r2.low) / (r1.high - r1.low) * 100
  else 0

/- The percentage actually surfaced to the user (TradePlanApp.py line 160):
   the success message interpolates `overlap_pct` only when `overlap` is
   true; otherwise the message is "No overlap (rare)" and no percentage is
   shown.  Absence of the figure is modelled as `none`. -/
def overlap_pct_displayed (r1 r2 : Range) : Option ℚ :=
  if overlap r1 r2 then some (overlap_pct r1 r2) else none

/- The three categorical signals of the Trade Plans tabs. -/
inductive Signal where
  | Sell
  | Buy
  | HoldInside
deriving DecidableEq

/- Intraday tab (TradePlanApp.py lines 168-175): SELL THE RIP when
   `latest_price > high`, BUY THE DIP when `latest_price < low`, otherwise
   "Inside range". -/
def intraday_signal (price low high : ℚ) : Signal :=
  if price > high then .Sell
  else if price < low then .Buy
  else .HoldInside

/- The numeric target shown with the intraday signal: `Target ₹high` on
   SELL, `Target ₹low` on BUY, none otherwise. -/
def intraday_target (price low high : ℚ) : Option ℚ :=
  if price > high then some high
  else if price < low then some low
  else none

/- Short-term tab threshold test with the multiplier as a parameter:
   SHORT when `price > high + (high-low)*k1`, LONG when
   `price < low - (high-low)*k1`, otherwise "Hold for range fill". -/
def short_term_signal_k (k1 price low high : ℚ) : Signal :=
  if price > high + (high - low) * k1 then .Sell
  else if price < low - (high - low) * k1 then .Buy
  else .HoldInside

/- Short-term tab (TradePlanApp.py lines 180-185): the script hardcodes
   the multiplier 0.2. -/
def short_term_signal (price low high : ℚ) : Signal :=
  short_term_signal_k (1 / 5) price low high

end TradePlanApp

namespace App

/- app.py lines 31-35: the single pair-selection loop, identical in shape
   to the LIVE branch of TradePlanApp (reverse scan, guard
   `s <= ref <= i + timedelta(30)`, fallback `pairs[-1]`), applied to the
   chosen reference date whether or not it is today. -/
def pair_selection (pairs : List EventPair) (ref : Int) : Option EventPair :=
  match pairs.reverse.find? (TradePlanApp.live_cond ref) with
  | some p => some p
  | none => pairs.getLast?

/- The loop of app.py's get_range (lines 39-45): `for delta in [-1,0,1]`,
   returning `(day['High'].max(), day['Low'].min())` for the first date
   `d + delta` whose mask is nonempty. -/
def get_range_loop (df : List PriceBar) (d : Int) : List Int → Option (ℚ × ℚ)
  | [] => none
  | delta :: rest =>
    match barsOn df (d + delta) with
    | [] => get_range_loop df d rest
    | b :: bs => some (maxHigh (b :: bs), minLow (b :: bs))

/- get_range (app.py lines 39-45).  Unlike TradePlanApp's version there is
   no exact-match step: the window [-1, 0, 1] is scanned directly, so
   `d - 1` is tried before `d` itself.  `return None, None` is `none`. -/
def get_range (df : List PriceBar) (d : Int) : Option (ℚ × ℚ) :=
  get_range_loop df d [-1, 0, 1]

end App

/- Concrete price series used in the examples below.
   739250 = 2024-12-30, 739251 = 2024-12-31, 739252 = 2025-01-01,
   739253 = 2025-01-02 (Python date.toordinal values). -/

/- A series with a single bar, on 2025-01-02. -/
def seriesJan2 : List PriceBar := [⟨739253, 100, 110, 95, 105⟩]

/- A series with one bar on 2024-12-31 and one on 2025-01-01. -/
def seriesDec31Jan1 : List PriceBar :=
  [⟨739251, 95, 100, 90, 95⟩, ⟨739252, 195, 200, 190, 195⟩]

/- Helper lemmas about the day aggregations. -/

theorem mkRange?_eq_none {day : List PriceBar} : mkRange? day = none ↔ day = [] := by
  cases day <;> simp [mkRange?]

theorem mkRange?_spec {day : List PriceBar} {r : Range} (h : mkRange? day = some r) :
    day ≠ [] ∧ r.high = maxHigh day ∧ r.low = minLow day := by
  cases day with
  | nil => simp [mkRange?] at h
  | cons b bs =>
    simp only [mkRange?, Option.some.injEq] at h
    exact ⟨by simp, by rw [← h], by rw [← h]⟩

theorem maxHigh_mem : ∀ l : List PriceBar, l ≠ [] → ∃ b ∈ l, maxHigh l = b.high
  | [], h => absurd rfl h
  | [b], _ => ⟨b, by simp, rfl⟩
  | b :: c :: bs, _ => by
    obtain ⟨x, hx, hmax⟩ := maxHigh_mem (c :: bs) (by simp)
    rcases le_total (maxHigh (c :: bs)) b.high with hcmp | hcmp
    · exact ⟨b, by simp, by simp [maxHigh, max_eq_left hcmp]⟩
    · refine ⟨x, by simp [hx], ?_⟩
      simp only [maxHigh]
      rw [max_eq_right hcmp, hmax]

theorem minLow_mem : ∀ l : List PriceBar, l ≠ [] → ∃ b ∈ l, minLow l = b.low
  | [], h => absurd rfl h
  | [b], _ => ⟨b, by simp, rfl⟩
  | b :: c :: bs, _ => by
    obtain ⟨x, hx, hmin⟩ := minLow_mem (c :: bs) (by simp)
    rcases le_total b.low (minLow (c :: bs)) with hcmp | hcmp
    · exact ⟨b, by simp, by simp [minLow, min_eq_left hcmp]⟩
    · refine ⟨x, by simp [hx], ?_⟩
      simp only [minLow]
      rw [min_eq_right hcmp, hmin]

theorem minLow_le_maxHigh : ∀ l : List PriceBar, l ≠ [] →
    (∀ b ∈ l, b.low ≤ b.high) → minLow l ≤ maxHigh l
  | [], h, _ => absurd rfl h
  | [b], _, h => h b (by simp)
  | b :: c :: bs, _, h => by
    simp only [minLow, maxHigh]
    calc min b.low (minLow (c :: bs)) ≤ b.low := min_le_left _ _
      _ ≤ b.high := h b (by simp)
      _ ≤ max b.high (maxHigh (c :: bs)) := le_max_left _ _

theorem mem_barsOn {df : List PriceBar} {d : Int} {b : PriceBar}
    (h : b ∈ barsOn df d) : b ∈ df :=
  (List.mem_filter.mp h).1

/-- Claim C1: for every ordered pair sequence and every reference date d such
that no pair satisfies sup ≤ d ≤ inf + toleranceWindow (the script's 10-day
window), HISTORICAL-mode pair selection fails — `st.error` plus `st.stop`,
modelled as `none` — and does not fall back to any default pair. -/
theorem historical_no_match_fails (pairs : List EventPair) (d : Int)
    (h : ∀ p ∈ pairs, ¬ (p.sup ≤ d ∧ d ≤ p.inf + 10)) :
    TradePlanApp.active_pair_historical pairs d = none := by
  rw [TradePlanApp.active_pair_historical, List.find?_eq_none]
  intro p hp
  simp only [TradePlanApp.hist_cond, Bool.and_eq_true, decide_eq_true_eq]
  exact fun hc => h p hp ⟨hc.1, hc.2⟩

/-- Witness for C1 at a concrete input: one pair (sup 100, inf 140) and
reference date 200, which is outside the 10-day tolerance window. -/
theorem historical_no_match_fails_witness :
    TradePlanApp.active_pair_historical [⟨100, 140⟩] 200 = none :=
  historical_no_match_fails [⟨100, 140⟩] 200 (by decide)

/-- Claim C2: for every non-empty pair sequence and every reference date,
LIVE-mode pair selection returns a pair: the first pair in reverse order
satisfying sup ≤ d ≤ inf + 30, and `pairs[-1]` when no pair satisfies it;
app.py's single selection loop computes the same function. -/
theorem live_selection_total (pairs : List EventPair) (d : Int)
    (h : pairs ≠ []) :
    (∃ p, TradePlanApp.active_pair_live pairs d = some p) ∧
    (∀ p, pairs.reverse.find? (TradePlanApp.live_cond d) = some p →
      TradePlanApp.active_pair_live pairs d = some p) ∧
    ((∀ p ∈ pairs, ¬ (p.sup ≤ d ∧ d ≤ p.inf + 30)) →
      TradePlanApp.active_pair_live pairs d = pairs.getLast?) ∧
    App.pair_selection pairs d = TradePlanApp.active_pair_live pairs d := by
  have hfind : ∀ (o : Option EventPair), pairs.reverse.find? (TradePlanApp.live_cond d) = o →
      TradePlanApp.active_pair_live pairs d =
        (match o with | some p => some p | none => pairs.getLast?) := by
    intro o ho
    rw [TradePlanApp.active_pair_live, ho]
  refine ⟨?_, ?_, ?_, rfl⟩
  · cases hf : pairs.reverse.find? (TradePlanApp.live_cond d) with
    | some p => exact ⟨p, hfind _ hf⟩
    | none =>
      refine ⟨pairs.getLast h, ?_⟩
      rw [hfind _ hf]
      exact (List.getLast?_eq_getLast_of_ne_nil h)
  · intro p hp
    exact hfind _ hp
  · intro hnone
    have hf : pairs.reverse.find? (TradePlanApp.live_cond d) = none := by
      rw [List.find?_eq_none]
      intro p hp
      simp only [TradePlanApp.live_cond, Bool.and_eq_true, decide_eq_true_eq]
      exact fun hc => hnone p (List.mem_reverse.mp hp) ⟨hc.1, hc.2⟩
    exact hfind _ hf

/-- Witness for C2 at a concrete input: the one-pair list [(10, 20)] with
reference date 100 (outside every window, so the fallback fires). -/
theorem live_selection_total_witness :
    ∃ p, TradePlanApp.active_pair_live [⟨10, 20⟩] 100 = some p :=
  (live_selection_total [⟨10, 20⟩] 100 (by decide)).1

/-- Claim C3 as stated is refuted by app.py's get_range: on a series with
bars on both 2024-12-31 and 2025-01-01, target 2025-01-01 has exactly one
bar (high 200, low 190), yet app.py's get_range returns the 2024-12-31
bar's range (100, 90), because its loop tries `date - 1` before the exact
date; TradePlanApp's get_range does return the exact bar's range. -/
theorem app_get_range_misses_exact :
    barsOn seriesDec31Jan1 739252 = [⟨739252, 195, 200, 190, 195⟩] ∧
    App.get_range seriesDec31Jan1 739252 = some (100, 90) ∧
    TradePlanApp.get_range seriesDec31Jan1 739252 = some ⟨200, 190, 195⟩ ∧
    ((100 : ℚ), (90 : ℚ)) ≠ ((200 : ℚ), (190 : ℚ)) := by
  refine ⟨by decide, by decide, by decide, by decide⟩

/-- Claim C3 (amended): TradePlanApp's get_range returns the exact date's
range when a bar exists on the target date and otherwise scans date - 1,
date, date + 1 in that order; app.py's get_range scans that window directly
with no exact-match priority (so date - 1 wins even when the target date
has a bar); both return absent when none of the three dates has a bar, and
on a series with a bar only on 2025-01-02 both return that bar's range for
target 2025-01-01 and absent for target 2024-12-30. -/
theorem get_range_fallback (df : List PriceBar) (d : Int) :
    (barsOn df d ≠ [] → TradePlanApp.get_range df d = mkRange? (barsOn df d)) ∧
    (barsOn df d = [] → barsOn df (d - 1) ≠ [] →
      TradePlanApp.get_range df d = mkRange? (barsOn df (d - 1))) ∧
    (barsOn df (d - 1) = [] → barsOn df d = [] → barsOn df (d + 1) ≠ [] →
      TradePlanApp.get_range df d = mkRange? (barsOn df (d + 1))) ∧
    (barsOn df (d - 1) = [] → barsOn df d = [] → barsOn df (d + 1) = [] →
      TradePlanApp.get_range df d = none ∧ App.get_range df d = none) ∧
    (barsOn df (d - 1) ≠ [] →
      App.get_range df d =
        some (maxHigh (barsOn df (d - 1)), minLow (barsOn df (d - 1)))) ∧
    (TradePlanApp.get_range seriesJan2 739252 = some ⟨110, 95, 105⟩ ∧
      App.get_range seriesJan2 739252 = some (110, 95)) ∧
    (TradePlanApp.get_range seriesJan2 739250 = none ∧
      App.get_range seriesJan2 739250 = none) := by
  have hadd : d + (-1 : Int) = d - 1 := by ring
  have hadd0 : d + (0 : Int) = d := by ring
  refine ⟨?_, ?_, ?_, ?_, ?_, ⟨by decide, by decide⟩, ⟨by decide, by decide⟩⟩
  · intro hne
    rw [TradePlanApp.get_range]
    cases hm : mkRange? (barsOn df d) with
    | some r => rfl
    | none => exact absurd (mkRange?_eq_none.mp hm) hne
  · intro hd hne
    rw [TradePlanApp.get_range, mkRange?_eq_none.mpr hd]
    rw [TradePlanApp.get_range_loop]
    cases hm : mkRange? (barsOn df (d - 1)) with
    | some r => rfl
    | none => exact absurd (mkRange?_eq_none.mp hm) hne
  · intro hm1 hd hne
    rw [TradePlanApp.get_range, mkRange?_eq_none.mpr hd]
    rw [TradePlanApp.get_range_loop, mkRange?_eq_none.mpr hm1]
    rw [TradePlanApp.get_range_loop, mkRange?_eq_none.mpr hd]
    rw [TradePlanApp.get_range_loop]
    cases hm : mkRange? (barsOn df (d + 1)) with
    | some r => rfl
    | none => exact absurd (mkRange?_eq_none.mp hm) hne
  · intro hm1 hd hp1
    constructor
    · rw [TradePlanApp.get_range, mkRange?_eq_none.mpr hd]
      rw [TradePlanApp.get_range_loop, mkRange?_eq_none.mpr hm1]
      rw [TradePlanApp.get_range_loop, mkRange?_eq_none.mpr hd]
      rw [TradePlanApp.get_range_loop, mkRange?_eq_none.mpr hp1]
      rfl
    · rw [App.get_range, App.get_range_loop, hadd, hm1]
      rw [App.get_range_loop, hadd0, hd]
      rw [App.get_range_loop, hp1]
      rfl
  · intro hne
    rw [App.get_range, App.get_range_loop, hadd]
    cases hm : barsOn df (d - 1) with
    | nil => exact absurd hm hne
    | cons b bs => rfl

/-- Witness for C3's amended theorem at a concrete input: on the
2024-12-31 / 2025-01-01 series, target 2025-01-01 has a bar, and
TradePlanApp's get_range returns exactly the exact-date aggregation. -/
theorem get_range_fallback_witness :
    TradePlanApp.get_range seriesDec31Jan1 739252 =
      mkRange? (barsOn seriesDec31Jan1 739252) :=
  (get_range_fallback seriesDec31Jan1 739252).1 (by decide)

/-- Claim C4: for ranges with low ≤ high, `overlap` is true exactly when
not (range1.high < range2.low or range2.high < range1.low), and when it is
true and range1 has positive span, `overlap_pct` is
(min(h1,h2) - max(l1,l2)) / (h1 - l1) * 100. -/
theorem overlap_analyzer_formula (r1 r2 : Range)
    (_h1 : r1.low ≤ r1.high) (_h2 : r2.low ≤ r2.high) :
    (TradePlanApp.overlap r1 r2 = true ↔
      ¬ (r1.high < r2.low ∨ r2.high < r1.low)) ∧
    (TradePlanApp.overlap r1 r2 = true → r1.low < r1.high →
      TradePlanApp.overlap_pct r1 r2 =
        (min r1.high r2.high - max r1.low r2.low) / (r1.high - r1.low) * 100) := by
  constructor
  · simp [TradePlanApp.overlap, not_or]
  · intro ho _hlt
    rw [TradePlanApp.overlap_pct, if_pos ho]

/-- Witness for C4 at a concrete input: range1 = (low 10, high 20),
range2 = (low 15, high 25). -/
theorem overlap_analyzer_formula_witness :
    TradePlanApp.overlap (⟨20, 10, 15⟩ : Range) ⟨25, 15, 20⟩ = true ↔
      ¬ ((20 : ℚ) < 15 ∨ (25 : ℚ) < 10) :=
  (overlap_analyzer_formula ⟨20, 10, 15⟩ ⟨25, 15, 20⟩ (by norm_num) (by norm_num)).1

/-- Claim C5 is violated by the code: for the zero-width range1 =
(low 10, high 10) against range2 = (low 5, high 15), `overlap` is true, so
TradePlanApp.py line 158 divides by range1.high - range1.low = 0 (numpy
floats: a NaN, silently displayed since warnings are suppressed), and the
displayed percentage is a number, not absent as the claim requires. -/
theorem degenerate_range_divides_by_zero :
    TradePlanApp.overlap (⟨10, 10, 10⟩ : Range) ⟨15, 5, 10⟩ = true ∧
    (Range.mk 10 10 10).high - (Range.mk 10 10 10).low = 0 ∧
    TradePlanApp.overlap_pct_displayed ⟨10, 10, 10⟩ ⟨15, 5, 10⟩ =
      some (TradePlanApp.overlap_pct ⟨10, 10, 10⟩ ⟨15, 5, 10⟩) := by
  have hov : TradePlanApp.overlap (⟨10, 10, 10⟩ : Range) ⟨15, 5, 10⟩ = true := by decide
  exact ⟨hov, by norm_num, by simp [TradePlanApp.overlap_pct_displayed, hov]⟩

/-- Claim C6: whenever the two intervals do not intersect, `overlap` is
false and the displayed percentage is absent (`none`), which is
distinguishable from a computed percentage of zero; a touching pair such
as range1 = (10, 20), range2 = (20, 30) displays `some 0`. -/
theorem no_overlap_pct_absent (r1 r2 : Range)
    (h : r1.high < r2.low ∨ r2.high < r1.low) :
    TradePlanApp.overlap r1 r2 = false ∧
    TradePlanApp.overlap_pct_displayed r1 r2 = none ∧
    TradePlanApp.overlap_pct_displayed r1 r2 ≠ some 0 ∧
    TradePlanApp.overlap_pct_displayed ⟨20, 10, 15⟩ ⟨30, 20, 25⟩ = some 0 := by
  have ho : TradePlanApp.overlap r1 r2 = false := by
    rcases h with h | h <;> simp [TradePlanApp.overlap, h]
  have hov : TradePlanApp.overlap (⟨20, 10, 15⟩ : Range) ⟨30, 20, 25⟩ = true := by decide
  refine ⟨ho, ?_, ?_, ?_⟩
  · rw [TradePlanApp.overlap_pct_displayed, if_neg (by simp [ho])]
  · rw [TradePlanApp.overlap_pct_displayed, if_neg (by simp [ho])]
    exact Option.noConfusion
  · simp only [TradePlanApp.overlap_pct_displayed, TradePlanApp.overlap_pct, hov,
      if_true, Option.some.injEq]
    norm_num [min_def, max_def]

/-- Witness for C6 at the claim's concrete input: range1 = (low 10,
high 20), range2 = (low 25, high 30). -/
theorem no_overlap_pct_absent_witness :
    TradePlanApp.overlap (⟨20, 10, 15⟩ : Range) ⟨30, 25, 27⟩ = false ∧
    TradePlanApp.overlap_pct_displayed (⟨20, 10, 15⟩ : Range) ⟨30, 25, 27⟩ = none ∧
    TradePlanApp.overlap_pct_displayed (⟨20, 10, 15⟩ : Range) ⟨30, 25, 27⟩ ≠ some 0 ∧
    TradePlanApp.overlap_pct_displayed (⟨20, 10, 15⟩ : Range) ⟨30, 20, 25⟩ = some 0 :=
  no_overlap_pct_absent ⟨20, 10, 15⟩ ⟨30, 25, 27⟩ (by norm_num)

/-- Claim C7: with low ≤ high, the intraday signal is Sell exactly when
price > high, Buy exactly when price < low, HoldInside otherwise; the
short-term signal is Sell exactly when price > high + span*0.2, Buy exactly
when price < low - span*0.2, HoldInside otherwise; the intraday Sell target
is high and the intraday Buy target is low. -/
theorem signal_thresholds (price low high : ℚ) (h : low ≤ high) :
    (TradePlanApp.intraday_signal price low high = .Sell ↔ price > high) ∧
    (TradePlanApp.intraday_signal price low high = .Buy ↔ price < low) ∧
    (TradePlanApp.intraday_signal price low high = .HoldInside ↔
      low ≤ price ∧ price ≤ high) ∧
    (TradePlanApp.short_term_signal price low high = .Sell ↔
      price > high + (high - low) * (1 / 5)) ∧
    (TradePlanApp.short_term_signal price low high = .Buy ↔
      price < low - (high - low) * (1 / 5)) ∧
    (TradePlanApp.short_term_signal price low high = .HoldInside ↔
      price ≤ high + (high - low) * (1 / 5) ∧
        low - (high - low) * (1 / 5) ≤ price) ∧
    (TradePlanApp.intraday_signal price low high = .Sell →
      TradePlanApp.intraday_target price low high = some high) ∧
    (TradePlanApp.intraday_signal price low high = .Buy →
      TradePlanApp.intraday_target price low high = some low) := by
  have hs : 0 ≤ (high - low) * (1 / 5) := mul_nonneg (by linarith) (by norm_num)
  unfold TradePlanApp.intraday_signal TradePlanApp.intraday_target
    TradePlanApp.short_term_signal TradePlanApp.short_term_signal_k
  refine ⟨?_, ?_, ?_, ?_, ?_, ?_, ?_, ?_⟩
  · constructor
    · intro hsig
      split_ifs at hsig with h1 h2
      exact h1
    · intro h1
      rw [if_pos h1]
  · constructor
    · intro hsig
      split_ifs at hsig with h1 h2
      exact h2
    · intro h2
      rw [if_neg (by linarith : ¬ price > high), if_pos h2]
  · constructor
    · intro hsig
      split_ifs at hsig with h1 h2
      exact ⟨not_lt.mp h2, not_lt.mp h1⟩
    · rintro ⟨ha, hb⟩
      rw [if_neg (not_lt.mpr hb), if_neg (not_lt.mpr ha)]
  · constructor
    · intro hsig
      split_ifs at hsig with h1 h2
      exact h1
    · intro h1
      rw [if_pos h1]
  · constructor
    · intro hsig
      split_ifs at hsig with h1 h2
      exact h2
    · intro h2
      rw [if_neg (by linarith : ¬ price > high + (high - low) * (1 / 5)), if_pos h2]
  · constructor
    · intro hsig
      split_ifs at hsig with h1 h2
      exact ⟨not_lt.mp h1, not_lt.mp h2⟩
    · rintro ⟨ha, hb⟩
      rw [if_neg (not_lt.mpr ha), if_neg (not_lt.mpr hb)]
  · intro hsig
    split_ifs at hsig with h1 h2
    rw [if_pos h1]
  · intro hsig
    split_ifs at hsig with h1 h2
    rw [if_neg h1, if_pos h2]

/-- Witness for C7 at a concrete input: price 23, range low 10, high 20
(span 10, short-term buffer 2). -/
theorem signal_thresholds_witness :
    TradePlanApp.short_term_signal 23 10 20 = .Sell ↔
      (23 : ℚ) > 20 + (20 - 10) * (1 / 5) :=
  (signal_thresholds 23 10 20 (by norm_num)).2.2.2.1

/-- Claim C8: overlap detection is symmetric in the two ranges, while the
percentage base is range1's span; for range1 = (10, 20), range2 = (15, 25)
overlap holds and the percentage is 50; for range1 = (10, 20),
range2 = (15, 40) swapping the arguments changes the percentage. -/
theorem overlap_symmetry_detection :
    (∀ r1 r2 : Range, TradePlanApp.overlap r1 r2 = TradePlanApp.overlap r2 r1) ∧
    TradePlanApp.overlap (⟨20, 10, 15⟩ : Range) ⟨25, 15, 20⟩ = true ∧
    TradePlanApp.overlap_pct (⟨20, 10, 15⟩ : Range) ⟨25, 15, 20⟩ = 50 ∧
    TradePlanApp.overlap_pct (⟨20, 10, 15⟩ : Range) ⟨40, 15, 20⟩ ≠
      TradePlanApp.overlap_pct (⟨40, 15, 20⟩ : Range) ⟨20, 10, 15⟩ := by
  have hsym : ∀ r1 r2 : Range,
      TradePlanApp.overlap r1 r2 = TradePlanApp.overlap r2 r1 := by
    intro r1 r2
    rw [TradePlanApp.overlap, TradePlanApp.overlap, Bool.or_comm]
  have h1 : TradePlanApp.overlap (⟨20, 10, 15⟩ : Range) ⟨25, 15, 20⟩ = true := by decide
  have h2 : TradePlanApp.overlap (⟨20, 10, 15⟩ : Range) ⟨40, 15, 20⟩ = true := by decide
  have h3 : TradePlanApp.overlap (⟨40, 15, 20⟩ : Range) ⟨20, 10, 15⟩ = true := by decide
  have e2 : TradePlanApp.overlap_pct (⟨20, 10, 15⟩ : Range) ⟨40, 15, 20⟩ = 50 := by
    rw [TradePlanApp.overlap_pct, if_pos h2]
    norm_num [min_def, max_def]
  have e3 : TradePlanApp.overlap_pct (⟨40, 15, 20⟩ : Range) ⟨20, 10, 15⟩ = 20 := by
    rw [TradePlanApp.overlap_pct, if_pos h3]
    norm_num [min_def, max_def]
  refine ⟨hsym, h1, ?_, ?_⟩
  · rw [TradePlanApp.overlap_pct, if_pos h1]
    norm_num [min_def, max_def]
  · rw [e2, e3]
    norm_num

/- Characterisation of where a get_range result comes from: some date whose
day selection is nonempty, aggregated by mkRange?. -/

theorem get_range_loop_spec {df : List PriceBar} {r : Range} :
    ∀ ds : List Int, TradePlanApp.get_range_loop df ds = some r →
      ∃ d ∈ ds, mkRange? (barsOn df d) = some r
  | [], h => by simp [TradePlanApp.get_range_loop] at h
  | d :: rest, h => by
    rw [TradePlanApp.get_range_loop] at h
    cases hm : mkRange? (barsOn df d) with
    | some r0 =>
      rw [hm] at h
      injection h with h
      exact ⟨d, by simp, by rw [hm, h]⟩
    | none =>
      rw [hm] at h
      obtain ⟨d', hd', hr'⟩ := get_range_loop_spec rest h
      exact ⟨d', by simp [hd'], hr'⟩

theorem get_range_spec {df : List PriceBar} {d : Int} {r : Range}
    (h : TradePlanApp.get_range df d = some r) :
    ∃ d', mkRange? (barsOn df d') = some r := by
  rw [TradePlanApp.get_range] at h
  cases hm : mkRange? (barsOn df d) with
  | some r0 =>
    rw [hm] at h
    injection h with h
    exact ⟨d, by rw [hm, h]⟩
  | none =>
    rw [hm] at h
    obtain ⟨d', _, hr'⟩ := get_range_loop_spec _ h
    exact ⟨d', hr'⟩

theorem app_get_range_loop_spec {df : List PriceBar} {d : Int} {hi lo : ℚ} :
    ∀ ds : List Int, App.get_range_loop df d ds = some (hi, lo) →
      ∃ delta ∈ ds, barsOn df (d + delta) ≠ [] ∧
        hi = maxHigh (barsOn df (d + delta)) ∧ lo = minLow (barsOn df (d + delta))
  | [], h => by simp [App.get_range_loop] at h
  | delta :: rest, h => by
    rw [App.get_range_loop] at h
    cases hm : barsOn df (d + delta) with
    | nil =>
      rw [hm] at h
      obtain ⟨d', hd', hr'⟩ := app_get_range_loop_spec rest h
      exact ⟨d', by simp [hd'], hr'⟩
    | cons b bs =>
      rw [hm] at h
      injection h with h
      injection h with h1 h2
      refine ⟨delta, by simp, by rw [hm]; simp, ?_, ?_⟩
      · rw [hm, ← h1]
      · rw [hm, ← h2]

/-- Claim C9: if every bar of the series satisfies low ≤ high, then every
non-absent result of either variant's get_range satisfies low ≤ high, with
the returned high some existing bar's high and the returned low some
existing bar's low (TradePlanApp.py's exact-then-window version and
app.py's window-only version alike). -/
theorem get_range_invariant (df : List PriceBar) (d : Int)
    (hb : ∀ b ∈ df, b.low ≤ b.high) :
    (∀ r : Range, TradePlanApp.get_range df d = some r →
      r.low ≤ r.high ∧ (∃ b ∈ df, r.high = b.high) ∧ ∃ b ∈ df, r.low = b.low) ∧
    (∀ hi lo : ℚ, App.get_range df d = some (hi, lo) →
      lo ≤ hi ∧ (∃ b ∈ df, hi = b.high) ∧ ∃ b ∈ df, lo = b.low) := by
  have hcore : ∀ day : List PriceBar, day ≠ [] → (∀ b ∈ day, b ∈ df) →
      minLow day ≤ maxHigh day ∧ (∃ b ∈ df, maxHigh day = b.high) ∧
        ∃ b ∈ df, minLow day = b.low := by
    intro day hne hsub
    refine ⟨minLow_le_maxHigh day hne (fun b hbm => hb b (hsub b hbm)), ?_, ?_⟩
    · obtain ⟨b, hbm, hbe⟩ := maxHigh_mem day hne
      exact ⟨b, hsub b hbm, hbe⟩
    · obtain ⟨b, hbm, hbe⟩ := minLow_mem day hne
      exact ⟨b, hsub b hbm, hbe⟩
  constructor
  · intro r hr
    obtain ⟨d', hd'⟩ := get_range_spec hr
    obtain ⟨hne, hhi, hlo⟩ := mkRange?_spec hd'
    obtain ⟨h1, h2, h3⟩ :=
      hcore (barsOn df d') hne (fun b hbm => mem_barsOn hbm)
    obtain ⟨b2, hb2, he2⟩ := h2
    obtain ⟨b3, hb3, he3⟩ := h3
    exact ⟨by rw [hhi, hlo]; exact h1,
      ⟨b2, hb2, by rw [hhi, he2]⟩, ⟨b3, hb3, by rw [hlo, he3]⟩⟩
  · intro hi lo hr
    rw [App.get_range] at hr
    obtain ⟨delta, _, hne, hhi, hlo⟩ := app_get_range_loop_spec _ hr
    obtain ⟨h1, h2, h3⟩ :=
      hcore (barsOn df (d + delta)) hne (fun b hbm => mem_barsOn hbm)
    obtain ⟨b2, hb2, he2⟩ := h2
    obtain ⟨b3, hb3, he3⟩ := h3
    exact ⟨by rw [hhi, hlo]; exact h1,
      ⟨b2, hb2, by rw [hhi, he2]⟩, ⟨b3, hb3, by rw [hlo, he3]⟩⟩

/-- Witness for C9 at a concrete input: the one-bar series on 2025-01-02
queried at 2025-01-01 (a fallback hit), for both variants. -/
theorem get_range_invariant_witness :
    ((Range.mk 110 95 105).low ≤ (Range.mk 110 95 105).high ∧
      (∃ b ∈ seriesJan2, (Range.mk 110 95 105).high = b.high) ∧
      ∃ b ∈ seriesJan2, (Range.mk 110 95 105).low = b.low) ∧
    ((95 : ℚ) ≤ 110 ∧ (∃ b ∈ seriesJan2, (110 : ℚ) = b.high) ∧
      ∃ b ∈ seriesJan2, (95 : ℚ) = b.low) :=
  ⟨(get_range_invariant seriesJan2 739252 (by decide)).1 ⟨110, 95, 105⟩ (by decide),
    (get_range_invariant seriesJan2 739252 (by decide)).2 110 95 (by decide)⟩

/-- Claim C10: with low ≤ high and multiplier k1 ≥ 0, a short-term Sell
implies an intraday Sell and a short-term Buy implies an intraday Buy: the
short-term horizon never signals while the intraday horizon holds. -/
theorem short_term_implies_intraday (price low high k1 : ℚ)
    (h : low ≤ high) (hk : 0 ≤ k1) :
    (TradePlanApp.short_term_signal_k k1 price low high = .Sell →
      TradePlanApp.intraday_signal price low high = .Sell) ∧
    (TradePlanApp.short_term_signal_k k1 price low high = .Buy →
      TradePlanApp.intraday_signal price low high = .Buy) := by
  have hs : 0 ≤ (high - low) * k1 := mul_nonneg (by linarith) hk
  constructor
  · intro hsig
    rw [TradePlanApp.short_term_signal_k] at hsig
    split_ifs at hsig with h1 h2
    rw [TradePlanApp.intraday_signal, if_pos (by linarith : price > high)]
  · intro hsig
    rw [TradePlanApp.short_term_signal_k] at hsig
    split_ifs at hsig with h1 h2
    rw [TradePlanApp.intraday_signal, if_neg (by linarith : ¬ price > high),
      if_pos (by linarith : price < low)]

/-- Witness for C10 at a concrete input: price 23, range low 10, high 20,
multiplier 0.2 (the script's value). -/
theorem short_term_implies_intraday_witness :
    (TradePlanApp.short_term_signal_k (1 / 5) 23 10 20 = .Sell →
      TradePlanApp.intraday_signal 23 10 20 = .Sell) ∧
    (TradePlanApp.short_term_signal_k (1 / 5) 23 10 20 = .Buy →
      TradePlanApp.intraday_signal 23 10 20 = .Buy) :=
  short_term_implies_intraday 23 10 20 (1 / 5) (by norm_num) (by norm_num)
